import Mathlib

/-!
A verification development for the pipe repository (pipe-cd/pipe): a
shallow embedding of the parts of the code base that the specification's
claims speak about, followed by theorems settling those claims.

Embedded here:
- pkg/config/deployment.go: the deployment configuration model, the
  two-pass JSON decoding of pipeline stages, timeout defaulting,
  GenericDeploymentSpec.Validate and GetStage;
- pkg/app/piped/planner/kubernetes/kubernetes.go: the Kubernetes planner
  (Plan, decideStrategy, findWorkload, checkImageChange,
  checkReplicasChange, parseContainerImage);
- pkg/app/piped/executor/ecs/deploy.go: the ECS deploy executor;
- pkg/app/piped/cmd/piped/piped.go and the ops command: CLI flag
  registration.

Machinery the code calls that lives outside the embedded files
(encoding/json, the manifest diff library, the git/cloud-provider
environment) is represented by explicit parameters, so that theorems can
quantify over every behaviour of those collaborators.
-/

set_option autoImplicit false

namespace Pipe

/-- Go strings.Contains: `sub` occurs as a contiguous substring of `s`. -/
def strContains (s sub : String) : Bool :=
  decide (sub.data <:+: s.data)

/-- Go strings.HasPrefix: `s` starts with `pre`. -/
def strHasPrefix (s pre : String) : Bool :=
  pre.data.isPrefixOf s.data

/-- Go strings.Split with a single-character separator, on char lists:
splitting the empty text yields one empty field, and every occurrence of
the separator opens a new field. -/
def splitCharList (c : Char) : List Char → List (List Char)
  | [] => [[]]
  | d :: ds =>
    match splitCharList c ds with
    | [] => [[]]
    | x :: xs => if d == c then [] :: x :: xs else (d :: x) :: xs

/-- Go strings.Split(s, sep) for a one-character sep, as used by
parseContainerImage with ":" and "/". -/
def goSplit (s : String) (c : Char) : List String :=
  (splitCharList c s.data).map String.mk

/-- Go strings.Join(elems, sep). -/
def goJoin : List String → String → String
  | [], _ => ""
  | [x], _ => x
  | x :: y :: xs, sep => x ++ sep ++ goJoin (y :: xs) sep

/-- One token of the two anchored regular expressions the planner uses:
a literal character, the metacharacter `.` (any character), or `\d+`. -/
inductive RegexTok where
  | lit (c : Char)
  | anyChar
  | digits
deriving DecidableEq

/-- The literal characters of `s` as pattern tokens. -/
def litToks (s : String) : List RegexTok :=
  s.data.map RegexTok.lit

/-- Anchored matching of a token list against a whole character list.
`digits` is matched greedily, which agrees with `\d+` semantics here
because in both patterns below the token after `\d+` is a non-digit
literal. -/
def matchToks : List RegexTok → List Char → Bool
  | [], cs => cs.isEmpty
  | RegexTok.lit c :: ps, cs =>
    match cs with
    | [] => false
    | d :: ds => c == d && matchToks ps ds
  | RegexTok.anyChar :: ps, cs =>
    match cs with
    | [] => false
    | _ :: ds => matchToks ps ds
  | RegexTok.digits :: ps, cs =>
    let ds := cs.takeWhile Char.isDigit
    !ds.isEmpty && matchToks ps (cs.drop ds.length)

/-- The pattern `^spec.template.spec.containers.\[\d+\].image$` of
checkImageChange, tokenized (an unescaped `.` matches any character). -/
def containerImageQueryToks : List RegexTok :=
  litToks "spec" ++ [RegexTok.anyChar] ++ litToks "template" ++ [RegexTok.anyChar] ++
  litToks "spec" ++ [RegexTok.anyChar] ++ litToks "containers" ++ [RegexTok.anyChar] ++
  litToks "[" ++ [RegexTok.digits] ++ litToks "]" ++ [RegexTok.anyChar] ++ litToks "image"

/-- Whether a diff path matches the container-image query of
checkImageChange. -/
def matchContainerImageQuery (path : String) : Bool :=
  matchToks containerImageQueryToks path.data

/-- The pattern `^spec.replicas$` of checkReplicasChange, tokenized. -/
def replicasQueryToks : List RegexTok :=
  litToks "spec" ++ [RegexTok.anyChar] ++ litToks "replicas"

/-- Whether a diff path matches the replicas query of
checkReplicasChange. -/
def matchReplicasQuery (path : String) : Bool :=
  matchToks replicasQueryToks path.data

/-- config.Duration: a Go time.Duration, i.e. a signed nanosecond count. -/
abbrev Duration := Int

/-- pkg/config/deployment.go: defaultWaitApprovalTimeout = 6h. -/
def defaultWaitApprovalTimeout : Duration := 6 * 60 * 60 * 1000000000

/-- pkg/config/deployment.go: defaultAnalysisQueryTimeout = 30s. -/
def defaultAnalysisQueryTimeout : Duration := 30 * 1000000000

/-- Modelled from the spec: the stage-name constants of pkg/model (not in
src). The spec enumerates the stage names; the switch in
PipelineStage.UnmarshalJSON only needs them to be pairwise distinct
strings. -/
def StageWait : String := "WAIT"

/-- Modelled from the spec: see StageWait. -/
def StageWaitApproval : String := "WAIT_APPROVAL"

/-- Modelled from the spec: see StageWait. -/
def StageAnalysis : String := "ANALYSIS"

/-- Modelled from the spec: see StageWait. -/
def StageK8sPrimaryRollout : String := "K8S_PRIMARY_ROLLOUT"

/-- Modelled from the spec: see StageWait. -/
def StageK8sCanaryRollout : String := "K8S_CANARY_ROLLOUT"

/-- Modelled from the spec: see StageWait. -/
def StageK8sCanaryClean : String := "K8S_CANARY_CLEAN"

/-- Modelled from the spec: see StageWait. -/
def StageK8sBaselineRollout : String := "K8S_BASELINE_ROLLOUT"

/-- Modelled from the spec: see StageWait. -/
def StageK8sBaselineClean : String := "K8S_BASELINE_CLEAN"

/-- Modelled from the spec: see StageWait. -/
def StageK8sTrafficRouting : String := "K8S_TRAFFIC_ROUTING"

/-- Modelled from the spec: see StageWait. -/
def StageTerraformSync : String := "TERRAFORM_SYNC"

/-- Modelled from the spec: see StageWait. -/
def StageTerraformPlan : String := "TERRAFORM_PLAN"

/-- Modelled from the spec: see StageWait. -/
def StageTerraformApply : String := "TERRAFORM_APPLY"

/-- Modelled from the spec: see StageWait. -/
def StageCloudRunSync : String := "CLOUDRUN_SYNC"

/-- Modelled from the spec: see StageWait. -/
def StageCloudRunPromote : String := "CLOUDRUN_PROMOTE"

/-- Modelled from the spec: see StageWait. -/
def StageLambdaSync : String := "LAMBDA_SYNC"

/-- Modelled from the spec: see StageWait. -/
def StageLambdaPromote : String := "LAMBDA_PROMOTE"

/-- Modelled from the spec: see StageWait. -/
def StageLambdaCanaryRollout : String := "LAMBDA_CANARY_ROLLOUT"

/-- Modelled from the spec: see StageWait. -/
def StageECSSync : String := "ECS_SYNC"

/-- pkg/config/deployment.go: WaitStageOptions. -/
structure WaitStageOptions where
  duration : Duration
deriving DecidableEq

/-- pkg/config/deployment.go: WaitApprovalStageOptions. -/
structure WaitApprovalStageOptions where
  timeout : Duration
  approvers : List String
deriving DecidableEq

/-- Modelled from the spec: AnalysisMetrics (its defining file is not in
src). It carries at least the query timeout consulted while decoding an
Analysis stage and the per-metric failure limit the spec names. -/
structure AnalysisMetrics where
  timeout : Duration
  failureLimit : Int
deriving DecidableEq

/-- Modelled from the spec: AnalysisLog; its payload is irrelevant to the
claims, so it is left without fields. -/
structure AnalysisLog where
deriving DecidableEq

/-- Modelled from the spec: AnalysisHTTP, left without fields. -/
structure AnalysisHTTP where
deriving DecidableEq

/-- Modelled from the spec: AnalysisDynamic, left without fields. -/
structure AnalysisDynamic where
deriving DecidableEq

/-- pkg/config/deployment.go: AnalysisTemplateRef. -/
structure AnalysisTemplateRef where
  name : String
  args : List (String × String)
deriving DecidableEq

/-- pkg/config/deployment.go: TemplatableAnalysisMetrics; the Go struct
embeds AnalysisMetrics, modelled as a named field. -/
structure TemplatableAnalysisMetrics where
  analysisMetrics : AnalysisMetrics
  template : AnalysisTemplateRef
deriving DecidableEq

/-- pkg/config/deployment.go: TemplatableAnalysisLog. -/
structure TemplatableAnalysisLog where
  analysisLog : AnalysisLog
  template : AnalysisTemplateRef
deriving DecidableEq

/-- pkg/config/deployment.go: TemplatableAnalysisHTTP. -/
structure TemplatableAnalysisHTTP where
  analysisHTTP : AnalysisHTTP
  template : AnalysisTemplateRef
deriving DecidableEq

/-- pkg/config/deployment.go: AnalysisStageOptions. -/
structure AnalysisStageOptions where
  duration : Duration
  restartThreshold : Int
  metrics : List TemplatableAnalysisMetrics
  logs : List TemplatableAnalysisLog
  https : List TemplatableAnalysisHTTP
  dynamic : AnalysisDynamic
deriving DecidableEq

/-- Modelled from the spec: the remaining per-kind stage options
(K8s*, Terraform*, CloudRun*, Lambda*) are named by the spec but their
fields are not consulted by any claim; each is left without fields. -/
structure K8sPrimaryRolloutStageOptions where
deriving DecidableEq

/-- Modelled from the spec: see K8sPrimaryRolloutStageOptions. -/
structure K8sCanaryRolloutStageOptions where
deriving DecidableEq

/-- Modelled from the spec: see K8sPrimaryRolloutStageOptions. -/
structure K8sCanaryCleanStageOptions where
deriving DecidableEq

/-- Modelled from the spec: see K8sPrimaryRolloutStageOptions. -/
structure K8sBaselineRolloutStageOptions where
deriving DecidableEq

/-- Modelled from the spec: see K8sPrimaryRolloutStageOptions. -/
structure K8sBaselineCleanStageOptions where
deriving DecidableEq

/-- Modelled from the spec: see K8sPrimaryRolloutStageOptions. -/
structure K8sTrafficRoutingStageOptions where
deriving DecidableEq

/-- Modelled from the spec: see K8sPrimaryRolloutStageOptions. -/
structure TerraformSyncStageOptions where
deriving DecidableEq

/-- Modelled from the spec: see K8sPrimaryRolloutStageOptions. -/
structure TerraformPlanStageOptions where
deriving DecidableEq

/-- Modelled from the spec: see K8sPrimaryRolloutStageOptions. -/
structure TerraformApplyStageOptions where
deriving DecidableEq

/-- Modelled from the spec: see K8sPrimaryRolloutStageOptions. -/
structure CloudRunSyncStageOptions where
deriving DecidableEq

/-- Modelled from the spec: see K8sPrimaryRolloutStageOptions. -/
structure CloudRunPromoteStageOptions where
deriving DecidableEq

/-- Modelled from the spec: see K8sPrimaryRolloutStageOptions. -/
structure LambdaSyncStageOptions where
deriving DecidableEq

/-- Modelled from the spec: see K8sPrimaryRolloutStageOptions. -/
structure LambdaCanaryRolloutStageOptions where
deriving DecidableEq

/-- Modelled from the spec: see K8sPrimaryRolloutStageOptions. -/
structure LambdaPromoteStageOptions where
deriving DecidableEq

/-- pkg/config/deployment.go: PipelineStage, the generic struct for all
stage types, with one optional options pointer per stage kind. -/
structure PipelineStage where
  id : String
  name : String
  desc : String
  timeout : Duration
  waitStageOptions : Option WaitStageOptions
  waitApprovalStageOptions : Option WaitApprovalStageOptions
  analysisStageOptions : Option AnalysisStageOptions
  k8sPrimaryRolloutStageOptions : Option K8sPrimaryRolloutStageOptions
  k8sCanaryRolloutStageOptions : Option K8sCanaryRolloutStageOptions
  k8sCanaryCleanStageOptions : Option K8sCanaryCleanStageOptions
  k8sBaselineRolloutStageOptions : Option K8sBaselineRolloutStageOptions
  k8sBaselineCleanStageOptions : Option K8sBaselineCleanStageOptions
  k8sTrafficRoutingStageOptions : Option K8sTrafficRoutingStageOptions
  terraformSyncStageOptions : Option TerraformSyncStageOptions
  terraformPlanStageOptions : Option TerraformPlanStageOptions
  terraformApplyStageOptions : Option TerraformApplyStageOptions
  cloudRunSyncStageOptions : Option CloudRunSyncStageOptions
  cloudRunPromoteStageOptions : Option CloudRunPromoteStageOptions
  lambdaSyncStageOptions : Option LambdaSyncStageOptions
  lambdaCanaryRolloutStageOptions : Option LambdaCanaryRolloutStageOptions
  lambdaPromoteStageOptions : Option LambdaPromoteStageOptions
deriving DecidableEq

/-- The Go zero value of PipelineStage: empty strings, zero timeout, every
options pointer nil. -/
def emptyPipelineStage : PipelineStage :=
  { id := "", name := "", desc := "", timeout := 0,
    waitStageOptions := none, waitApprovalStageOptions := none,
    analysisStageOptions := none,
    k8sPrimaryRolloutStageOptions := none, k8sCanaryRolloutStageOptions := none,
    k8sCanaryCleanStageOptions := none, k8sBaselineRolloutStageOptions := none,
    k8sBaselineCleanStageOptions := none, k8sTrafficRoutingStageOptions := none,
    terraformSyncStageOptions := none, terraformPlanStageOptions := none,
    terraformApplyStageOptions := none, cloudRunSyncStageOptions := none,
    cloudRunPromoteStageOptions := none, lambdaSyncStageOptions := none,
    lambdaCanaryRolloutStageOptions := none, lambdaPromoteStageOptions := none }

/-- pkg/config/deployment.go: genericPipelineStage, the envelope decoded
in the first pass of PipelineStage.UnmarshalJSON. `withRaw` is the raw
json.RawMessage of the `with` field (empty when absent). -/
structure GenericPipelineStage where
  id : String
  name : String
  desc : String
  timeout : Duration
  withRaw : String
deriving DecidableEq

/-- json.Unmarshal into a value of type α, left abstract: it receives the
value written so far (the Go zero value at every call site here) and the
raw bytes, and yields the updated value and the error, mirroring how Go
mutates the target in place and returns an error. -/
def JSONDecoder (α : Type) : Type :=
  α → String → α × Option String

/-- The family of json.Unmarshal behaviours for the `with` payloads, one
per options type; theorems quantify over every such family. -/
structure WithDecoders where
  wait : JSONDecoder WaitStageOptions
  waitApproval : JSONDecoder WaitApprovalStageOptions
  analysis : JSONDecoder AnalysisStageOptions
  k8sPrimaryRollout : JSONDecoder K8sPrimaryRolloutStageOptions
  k8sCanaryRollout : JSONDecoder K8sCanaryRolloutStageOptions
  k8sCanaryClean : JSONDecoder K8sCanaryCleanStageOptions
  k8sBaselineRollout : JSONDecoder K8sBaselineRolloutStageOptions
  k8sBaselineClean : JSONDecoder K8sBaselineCleanStageOptions
  k8sTrafficRouting : JSONDecoder K8sTrafficRoutingStageOptions
  terraformSync : JSONDecoder TerraformSyncStageOptions
  terraformPlan : JSONDecoder TerraformPlanStageOptions
  terraformApply : JSONDecoder TerraformApplyStageOptions
  cloudRunSync : JSONDecoder CloudRunSyncStageOptions
  cloudRunPromote : JSONDecoder CloudRunPromoteStageOptions
  lambdaSync : JSONDecoder LambdaSyncStageOptions
  lambdaPromote : JSONDecoder LambdaPromoteStageOptions
  lambdaCanaryRollout : JSONDecoder LambdaCanaryRolloutStageOptions

/-- The `opts := zero; if len(gs.With) > 0 { err = json.Unmarshal(gs.With,
&opts) }` pattern repeated in every case of the UnmarshalJSON switch. -/
def decodeWith {α : Type} (d : JSONDecoder α) (zero : α) (raw : String) : α × Option String :=
  if raw.length > 0 then d zero raw else (zero, none)

/-- The Go zero value of AnalysisStageOptions. -/
def zeroAnalysisStageOptions : AnalysisStageOptions :=
  { duration := 0, restartThreshold := 0, metrics := [], logs := [], https := [],
    dynamic := {} }

/-- pkg/config/deployment.go: PipelineStage.UnmarshalJSON. The first pass
(json.Unmarshal of the envelope) is the `envelope` argument; the second
pass switches on the stage name, allocates the options variant selected
by it, decodes `with` into that variant when present, applies the
WaitApproval and Analysis timeout defaults, and rejects unknown names.
The pair returned is (the receiver after the call, the returned error). -/
def unmarshalPipelineStage (dec : WithDecoders)
    (envelope : Except String GenericPipelineStage) : PipelineStage × Option String :=
  match envelope with
  | .error e => (emptyPipelineStage, some e)
  | .ok gs =>
    let s := { emptyPipelineStage with
               id := gs.id, name := gs.name, desc := gs.desc, timeout := gs.timeout }
    if gs.name == StageWait then
      let r := decodeWith dec.wait { duration := 0 } gs.withRaw
      ({ s with waitStageOptions := some r.1 }, r.2)
    else if gs.name == StageWaitApproval then
      let r := decodeWith dec.waitApproval { timeout := 0, approvers := [] } gs.withRaw
      let v := if r.1.timeout ≤ 0 then { r.1 with timeout := defaultWaitApprovalTimeout }
               else r.1
      ({ s with waitApprovalStageOptions := some v }, r.2)
    else if gs.name == StageAnalysis then
      let r := decodeWith dec.analysis zeroAnalysisStageOptions gs.withRaw
      let v := { r.1 with metrics := r.1.metrics.map (fun m =>
        if m.analysisMetrics.timeout ≤ 0 then
          { m with analysisMetrics :=
                     { m.analysisMetrics with timeout := defaultAnalysisQueryTimeout } }
        else m) }
      ({ s with analysisStageOptions := some v }, r.2)
    else if gs.name == StageK8sPrimaryRollout then
      let r := decodeWith dec.k8sPrimaryRollout {} gs.withRaw
      ({ s with k8sPrimaryRolloutStageOptions := some r.1 }, r.2)
    else if gs.name == StageK8sCanaryRollout then
      let r := decodeWith dec.k8sCanaryRollout {} gs.withRaw
      ({ s with k8sCanaryRolloutStageOptions := some r.1 }, r.2)
    else if gs.name == StageK8sCanaryClean then
      let r := decodeWith dec.k8sCanaryClean {} gs.withRaw
      ({ s with k8sCanaryCleanStageOptions := some r.1 }, r.2)
    else if gs.name == StageK8sBaselineRollout then
      let r := decodeWith dec.k8sBaselineRollout {} gs.withRaw
      ({ s with k8sBaselineRolloutStageOptions := some r.1 }, r.2)
    else if gs.name == StageK8sBaselineClean then
      let r := decodeWith dec.k8sBaselineClean {} gs.withRaw
      ({ s with k8sBaselineCleanStageOptions := some r.1 }, r.2)
    else if gs.name == StageK8sTrafficRouting then
      let r := decodeWith dec.k8sTrafficRouting {} gs.withRaw
      ({ s with k8sTrafficRoutingStageOptions := some r.1 }, r.2)
    else if gs.name == StageTerraformSync then
      let r := decodeWith dec.terraformSync {} gs.withRaw
      ({ s with terraformSyncStageOptions := some r.1 }, r.2)
    else if gs.name == StageTerraformPlan then
      let r := decodeWith dec.terraformPlan {} gs.withRaw
      ({ s with terraformPlanStageOptions := some r.1 }, r.2)
    else if gs.name == StageTerraformApply then
      let r := decodeWith dec.terraformApply {} gs.withRaw
      ({ s with terraformApplyStageOptions := some r.1 }, r.2)
    else if gs.name == StageCloudRunSync then
      let r := decodeWith dec.cloudRunSync {} gs.withRaw
      ({ s with cloudRunSyncStageOptions := some r.1 }, r.2)
    else if gs.name == StageCloudRunPromote then
      let r := decodeWith dec.cloudRunPromote {} gs.withRaw
      ({ s with cloudRunPromoteStageOptions := some r.1 }, r.2)
    else if gs.name == StageLambdaSync then
      let r := decodeWith dec.lambdaSync {} gs.withRaw
      ({ s with lambdaSyncStageOptions := some r.1 }, r.2)
    else if gs.name == StageLambdaPromote then
      let r := decodeWith dec.lambdaPromote {} gs.withRaw
      ({ s with lambdaPromoteStageOptions := some r.1 }, r.2)
    else if gs.name == StageLambdaCanaryRollout then
      let r := decodeWith dec.lambdaCanaryRollout {} gs.withRaw
      ({ s with lambdaCanaryRolloutStageOptions := some r.1 }, r.2)
    else
      (s, some ("unsupported stage name: " ++ gs.name))

/-- The stage names PipelineStage.UnmarshalJSON supports, in switch
order. -/
def supportedStageNames : List String :=
  [StageWait, StageWaitApproval, StageAnalysis,
   StageK8sPrimaryRollout, StageK8sCanaryRollout, StageK8sCanaryClean,
   StageK8sBaselineRollout, StageK8sBaselineClean, StageK8sTrafficRouting,
   StageTerraformSync, StageTerraformPlan, StageTerraformApply,
   StageCloudRunSync, StageCloudRunPromote,
   StageLambdaSync, StageLambdaPromote, StageLambdaCanaryRollout]

/-- The stage names whose options pointer is set in `s`, one entry per
non-nil pointer, in field order. -/
def setOptionNames (s : PipelineStage) : List String :=
  (if s.waitStageOptions.isSome then [StageWait] else []) ++
  (if s.waitApprovalStageOptions.isSome then [StageWaitApproval] else []) ++
  (if s.analysisStageOptions.isSome then [StageAnalysis] else []) ++
  (if s.k8sPrimaryRolloutStageOptions.isSome then [StageK8sPrimaryRollout] else []) ++
  (if s.k8sCanaryRolloutStageOptions.isSome then [StageK8sCanaryRollout] else []) ++
  (if s.k8sCanaryCleanStageOptions.isSome then [StageK8sCanaryClean] else []) ++
  (if s.k8sBaselineRolloutStageOptions.isSome then [StageK8sBaselineRollout] else []) ++
  (if s.k8sBaselineCleanStageOptions.isSome then [StageK8sBaselineClean] else []) ++
  (if s.k8sTrafficRoutingStageOptions.isSome then [StageK8sTrafficRouting] else []) ++
  (if s.terraformSyncStageOptions.isSome then [StageTerraformSync] else []) ++
  (if s.terraformPlanStageOptions.isSome then [StageTerraformPlan] else []) ++
  (if s.terraformApplyStageOptions.isSome then [StageTerraformApply] else []) ++
  (if s.cloudRunSyncStageOptions.isSome then [StageCloudRunSync] else []) ++
  (if s.cloudRunPromoteStageOptions.isSome then [StageCloudRunPromote] else []) ++
  (if s.lambdaSyncStageOptions.isSome then [StageLambdaSync] else []) ++
  (if s.lambdaPromoteStageOptions.isSome then [StageLambdaPromote] else []) ++
  (if s.lambdaCanaryRolloutStageOptions.isSome then [StageLambdaCanaryRollout] else [])

/-- The error, if any, of decoding the `with` payload into the options
variant selected by the stage name; none when the name is unsupported (no
variant is selected then). This mirrors the switch of
PipelineStage.UnmarshalJSON case for case. -/
def selectedWithError (dec : WithDecoders) (gs : GenericPipelineStage) : Option String :=
  if gs.name == StageWait then
    (decodeWith dec.wait { duration := 0 } gs.withRaw).2
  else if gs.name == StageWaitApproval then
    (decodeWith dec.waitApproval { timeout := 0, approvers := [] } gs.withRaw).2
  else if gs.name == StageAnalysis then
    (decodeWith dec.analysis zeroAnalysisStageOptions gs.withRaw).2
  else if gs.name == StageK8sPrimaryRollout then
    (decodeWith dec.k8sPrimaryRollout {} gs.withRaw).2
  else if gs.name == StageK8sCanaryRollout then
    (decodeWith dec.k8sCanaryRollout {} gs.withRaw).2
  else if gs.name == StageK8sCanaryClean then
    (decodeWith dec.k8sCanaryClean {} gs.withRaw).2
  else if gs.name == StageK8sBaselineRollout then
    (decodeWith dec.k8sBaselineRollout {} gs.withRaw).2
  else if gs.name == StageK8sBaselineClean then
    (decodeWith dec.k8sBaselineClean {} gs.withRaw).2
  else if gs.name == StageK8sTrafficRouting then
    (decodeWith dec.k8sTrafficRouting {} gs.withRaw).2
  else if gs.name == StageTerraformSync then
    (decodeWith dec.terraformSync {} gs.withRaw).2
  else if gs.name == StageTerraformPlan then
    (decodeWith dec.terraformPlan {} gs.withRaw).2
  else if gs.name == StageTerraformApply then
    (decodeWith dec.terraformApply {} gs.withRaw).2
  else if gs.name == StageCloudRunSync then
    (decodeWith dec.cloudRunSync {} gs.withRaw).2
  else if gs.name == StageCloudRunPromote then
    (decodeWith dec.cloudRunPromote {} gs.withRaw).2
  else if gs.name == StageLambdaSync then
    (decodeWith dec.lambdaSync {} gs.withRaw).2
  else if gs.name == StageLambdaPromote then
    (decodeWith dec.lambdaPromote {} gs.withRaw).2
  else if gs.name == StageLambdaCanaryRollout then
    (decodeWith dec.lambdaCanaryRollout {} gs.withRaw).2
  else
    none

/-- pkg/config/deployment.go: DeploymentCommitMatcher. -/
structure DeploymentCommitMatcher where
  quickSync : String
  pipeline : String
deriving DecidableEq

/-- pkg/config/deployment.go: DeploymentPipeline. -/
structure DeploymentPipeline where
  stages : List PipelineStage
deriving DecidableEq

/-- pkg/config/deployment.go: SealedSecretMapping. -/
structure SealedSecretMapping where
  path : String
  outFilename : String
  outDir : String
deriving DecidableEq

/-- pkg/config/deployment.go: GenericDeploymentSpec. A nil Pipeline
pointer is `none`. -/
structure GenericDeploymentSpec where
  commitMatcher : DeploymentCommitMatcher
  pipeline : Option DeploymentPipeline
  sealedSecrets : List SealedSecretMapping
  triggerPaths : List String
  timeout : Duration
deriving DecidableEq

/-- pkg/config/deployment.go: AnalysisStageOptions.Validate, returning the
error. -/
def AnalysisStageOptions.Validate (a : AnalysisStageOptions) : Option String :=
  if a.duration == 0 then some "the ANALYSIS stage requires duration field" else none

/-- pkg/config/deployment.go: GenericDeploymentSpec.Validate. The Go
method mutates the receiver (defaulting Timeout to 6h when zero) and then
returns the first error among the analysis options of the pipeline
stages; the pair is (the receiver after the call, the returned error). -/
def GenericDeploymentSpec.Validate (s : GenericDeploymentSpec) :
    GenericDeploymentSpec × Option String :=
  let s := if s.timeout == 0 then { s with timeout := 6 * 60 * 60 * 1000000000 } else s
  match s.pipeline with
  | none => (s, none)
  | some p =>
    (s, p.stages.findSome? (fun stage =>
      match stage.analysisStageOptions with
      | some a => a.Validate
      | none => none))

/-- pkg/config/deployment.go: GenericDeploymentSpec.GetStage. The index is
a Go int32; indexing a slice with a negative index panics, which is the
`none` result — the source only guards the upper bound. -/
def GenericDeploymentSpec.GetStage (s : GenericDeploymentSpec) (index : Int) :
    Option (PipelineStage × Bool) :=
  match s.pipeline with
  | none => some (emptyPipelineStage, false)
  | some p =>
    if (p.stages.length : Int) ≤ index then some (emptyPipelineStage, false)
    else
      match index with
      | Int.ofNat n => some (p.stages.getD n emptyPipelineStage, true)
      | Int.negSucc _ => none

/-- Modelled from the spec: a Manifest's stable Key = (api-group, kind,
namespace, name). -/
structure ResourceKey where
  apiGroup : String
  kind : String
  nspace : String
  name : String
deriving DecidableEq

/-- Modelled from the spec: the Key-based predicate behind findWorkload; a
workload manifest is a Deployment-kind resource. -/
def ResourceKey.IsDeployment (k : ResourceKey) : Bool :=
  k.kind == "Deployment"

/-- Modelled from the spec: a Manifest is a normalized resource carrying
its Key; its content is viewed as a flat mapping from JSON paths to
scalar values, the view the diff output (path, before, after) exposes. -/
structure Manifest where
  key : ResourceKey
  fields : List (String × String)
deriving DecidableEq

/-- One record of a diff result: the JSON path and the before/after
values. -/
structure DiffResult where
  path : String
  before : String
  after : String
deriving DecidableEq

/-- provider.DiffResultList. -/
abbrev DiffResultList := List DiffResult

/-- The value of a manifest at a path; a missing path reads as the empty
value. -/
def lookupField (m : Manifest) (p : String) : String :=
  match m.fields.find? (fun f => f.1 == p) with
  | some f => f.2
  | none => ""

/-- The paths of both manifests, first occurrence kept. -/
def dedupPaths : List String → List String
  | [] => []
  | p :: ps => p :: (dedupPaths ps).filter (fun q => q != p)

/-- Modelled from the spec: "Diff output is a list of JSON-path-rooted
difference records (path, before, after)". provider.Diff with
WithPathPrefix(pre) lists every path of either manifest under the given
prefix whose value differs between the two. -/
def Diff (o n : Manifest) (pre : String) : DiffResultList :=
  ((dedupPaths ((o.fields.map Prod.fst) ++ (n.fields.map Prod.fst))).filter
    (fun p => strHasPrefix p pre && (lookupField o p != lookupField n p))).map
    (fun p => { path := p, before := lookupField o p, after := lookupField n p })

/-- Modelled from the spec: DiffResultList.FindByPrefix keeps the records
whose path starts with the given literal prefix. -/
def FindByPrefix (l : DiffResultList) (pre : String) : DiffResultList :=
  l.filter (fun d => strHasPrefix d.path pre)

/-- Modelled from the spec: DiffResultList.FindAll keeps the records whose
path matches the query regular expression, given here as a compiled
predicate. -/
def FindAll (l : DiffResultList) (q : String → Bool) : DiffResultList :=
  l.filter (fun d => q d.path)

/-- Modelled from the spec: DiffResultList.Find returns the first record
whose path matches the query. -/
def Find (l : DiffResultList) (q : String → Bool) : Option DiffResult :=
  l.find? (fun d => q d.path)

/-- planner/kubernetes/kubernetes.go: parseContainerImage. -/
def parseContainerImage (image : String) : String × String :=
  let parts := goSplit image ':'
  let tag := match parts with
    | [_, t] => t
    | _ => ""
  let paths := goSplit (parts.headD "") '/'
  (paths.getLastD "", tag)

/-- planner/kubernetes/kubernetes.go: checkImageChange; returns
(description, changed). -/
def checkImageChange (diffList : DiffResultList) : String × Bool :=
  let imageDiffs := FindAll diffList matchContainerImageQuery
  if imageDiffs.isEmpty then ("", false)
  else
    let images := imageDiffs.map (fun d =>
      let before := parseContainerImage d.before
      let after := parseContainerImage d.after
      if before.1 == after.1 then
        "image " ++ before.1 ++ " from " ++ before.2 ++ " to " ++ after.2
      else
        "image " ++ before.1 ++ ":" ++ before.2 ++ " to " ++ after.1 ++ ":" ++ after.2)
    ("Progressive deployment because of updating " ++ goJoin images ", " ++ ".", true)

/-- planner/kubernetes/kubernetes.go: checkReplicasChange; returns
(description, changed). -/
def checkReplicasChange (diffList : DiffResultList) : String × Bool :=
  match Find diffList matchReplicasQuery with
  | none => ("", false)
  | some d => ("Scale workload from " ++ d.before ++ " to " ++ d.after ++ ".", true)

/-- planner/kubernetes/kubernetes.go: findWorkload; the first
Deployment-kind manifest, if any. -/
def findWorkload (manifests : List Manifest) : Option Manifest :=
  manifests.find? (fun m => m.key.IsDeployment)

/-- planner/kubernetes/kubernetes.go: decideStrategy; returns
(progressive, description). -/
def decideStrategy (olds news : List Manifest) : Bool × String :=
  match findWorkload olds with
  | none => (false, "Apply all manifests because it was unable to find the currently running workloads.")
  | some oldWorkload =>
    match findWorkload news with
    | none => (false, "Apply all manifests because it was unable to find workloads in the new manifests.")
    | some newWorkload =>
      let workloadDiffs := Diff oldWorkload newWorkload "spec"
      let templateDiffs := FindByPrefix workloadDiffs "spec.template"
      if templateDiffs.length > 0 then
        let image := checkImageChange templateDiffs
        if image.2 then (true, image.1)
        else (true, "Progressive deployment because pod template of workload " ++
                    newWorkload.key.name ++ " was changed.")
      else
        let replicas := checkReplicasChange workloadDiffs
        if replicas.2 then (false, replicas.1)
        else (false, "Apply all manifests")

/-- Modelled from the spec: the stage statuses of pkg/model. -/
inductive StageStatus where
  | notStarted
  | running
  | success
  | failure
  | cancelled
  | skipped
deriving DecidableEq

/-- Modelled from the spec: a model.PipelineStage as the Planner emits it.
The spec's Stage attributes are id, name, required-predecessor ids,
visibility and status (plus fields no claim consults); there is no
timestamp among them. -/
structure ModelStage where
  id : String
  name : String
  desc : String
  requires : List String
  visible : Bool
  status : StageStatus
deriving DecidableEq

/-- Modelled from the spec: buildPipeline (planner/kubernetes, not in
src) builds the QuickSync stage list — the single primary-apply stage.
The source passes time.Now() in; the spec's stage model carries no
timestamp, so the clock argument is unused. -/
def buildPipeline (_now : Int) : List ModelStage :=
  [{ id := "stage-0", name := StageK8sPrimaryRollout, desc := "",
     requires := [], visible := true, status := StageStatus.notStarted }]

/-- Modelled from the spec: buildProgressivePipeline (planner/kubernetes,
not in src) turns the configured pipeline stages into the progressive
stage list in order; as with buildPipeline the clock argument is unused. -/
def buildProgressivePipeline (pipeline : Option DeploymentPipeline) (_now : Int) :
    List ModelStage :=
  match pipeline with
  | none => []
  | some p => p.stages.map (fun s =>
      { id := s.id, name := s.name, desc := s.desc,
        requires := [], visible := true, status := StageStatus.notStarted })

/-- Modelled from the spec: KubernetesDeploymentSpec (pkg/config, not in
src) embeds GenericDeploymentSpec; its Input block only parametrizes the
manifest loader, which is abstracted by ManifestSource below. -/
structure KubernetesDeploymentSpec where
  generic : GenericDeploymentSpec
deriving DecidableEq

/-- The declared inputs of the Kubernetes planner that Plan reads:
DeploymentConfig (a nil KubernetesDeploymentSpec is none), the most
recent successful commit hash, and the trigger commit message. -/
structure PlannerInput where
  kubernetesDeploymentSpec : Option KubernetesDeploymentSpec
  mostRecentSuccessfulCommitHash : String
  commitMessage : String

/-- The git/cloud-provider environment Plan talks to, abstracted as the
results of the four calls Plan makes in order: provider Init, LoadManifests
at the new commit, Checkout to the last successful commit, LoadManifests
at that commit. -/
structure ManifestSource where
  initResult : Except String Unit
  loadNewManifests : Except String (List Manifest)
  checkoutResult : Except String Unit
  loadOldManifests : Except String (List Manifest)

/-- planner.Output as Plan fills it: the stage list and the description. -/
structure PlannerOutput where
  stages : List ModelStage
  description : String
deriving DecidableEq

/-- planner/kubernetes/kubernetes.go: Plan. The `now` argument is the
value of the time.Now() calls; `src` is the manifest-loading environment. -/
def Plan (input : PlannerInput) (src : ManifestSource) (now : Int) :
    Except String PlannerOutput :=
  match input.kubernetesDeploymentSpec with
  | none => Except.error "malfored deployment configuration: missing KubernetesDeploymentSpec"
  | some cfg =>
    if input.mostRecentSuccessfulCommitHash == "" then
      Except.ok
        { stages := buildPipeline now,
          description := "Apply all manifests because it was unable to find the most recent successful commit." }
    else if strContains input.commitMessage "/pipecd rollback " then
      Except.ok
        { stages := buildPipeline now,
          description := "Rollback from commit " ++ input.mostRecentSuccessfulCommitHash ++ "." }
    else
      match src.initResult with
      | Except.error e => Except.error e
      | Except.ok _ =>
        match src.loadNewManifests with
        | Except.error e => Except.error ("failed to load new manifests: " ++ e)
        | Except.ok newManifests =>
          match src.checkoutResult with
          | Except.error e =>
            Except.error ("failed to checkout to commit " ++
              input.mostRecentSuccessfulCommitHash ++ ": " ++ e)
          | Except.ok _ =>
            match src.loadOldManifests with
            | Except.error e =>
              Except.error ("failed to load previously deployed manifests: " ++ e)
            | Except.ok oldManifests =>
              let strategy := decideStrategy oldManifests newManifests
              if strategy.1 then
                Except.ok { stages := buildProgressivePipeline cfg.generic.pipeline now,
                            description := strategy.2 }
              else
                Except.ok { stages := buildPipeline now, description := strategy.2 }

/-- Modelled from the spec: an ECS task definition; its content is not
consulted by any claim. -/
structure ECSTaskDefinition where
deriving DecidableEq

/-- Modelled from the spec: an ECS service definition; content not
consulted. -/
structure ECSServiceDefinition where
deriving DecidableEq

/-- Modelled from the spec: config.CloudProviderECSConfig; content not
consulted. -/
structure CloudProviderECSConfig where
deriving DecidableEq

/-- Modelled from the spec: the input block of config.ECSDeploymentSpec,
naming the task and service definition files. -/
structure ECSDeploymentInput where
  taskDefinitionFile : String
  serviceDefinitionFile : String
deriving DecidableEq

/-- Modelled from the spec: config.ECSDeploymentSpec. -/
structure ECSDeploymentSpec where
  input : ECSDeploymentInput
deriving DecidableEq

/-- The deploy-source view the ECS executor reads: the deployment
configuration with its optional ECSDeploymentSpec (nil pointer is none). -/
structure ECSDeploySource where
  ecsDeploymentSpec : Option ECSDeploymentSpec
deriving DecidableEq

/-- The collaborators of executor/ecs/deploy.go, abstracted as the results
of the calls Execute and ensureSync make: TargetDSP.GetReadOnly,
findCloudProvider, loadTaskDefinition, loadServiceDefinition, sync, and
executor.DetermineStageStatus (original status first). -/
structure ECSExecEnv where
  getReadOnly : Except String ECSDeploySource
  findCloudProvider : Option (String × CloudProviderECSConfig)
  loadTaskDefinition : String → ECSDeploySource → Option ECSTaskDefinition
  loadServiceDefinition : String → ECSDeploySource → Option ECSServiceDefinition
  sync : String → CloudProviderECSConfig → ECSTaskDefinition → ECSServiceDefinition → Bool
  determineStageStatus : StageStatus → StageStatus → StageStatus

/-- executor/ecs/deploy.go: deployExecutor.ensureSync. -/
def ecsEnsureSync (env : ECSExecEnv) (deployCfg : ECSDeploymentSpec)
    (cloudProviderName : String) (cloudProviderCfg : CloudProviderECSConfig)
    (ds : ECSDeploySource) : StageStatus :=
  match env.loadTaskDefinition deployCfg.input.taskDefinitionFile ds with
  | none => StageStatus.failure
  | some taskDefinition =>
    match env.loadServiceDefinition deployCfg.input.serviceDefinitionFile ds with
    | none => StageStatus.failure
    | some serviceDefinition =>
      if env.sync cloudProviderName cloudProviderCfg taskDefinition serviceDefinition then
        StageStatus.success
      else StageStatus.failure

/-- executor/ecs/deploy.go: deployExecutor.Execute, given the stage name
and its current status. The pair returned is (the stage status, the error
lines Execute itself wrote to the LogPersister). -/
def ecsExecute (env : ECSExecEnv) (stageName : String) (originalStatus : StageStatus) :
    StageStatus × List String :=
  match env.getReadOnly with
  | Except.error e =>
    (StageStatus.failure, ["Failed to prepare target deploy source data (" ++ e ++ ")"])
  | Except.ok ds =>
    match ds.ecsDeploymentSpec with
    | none =>
      (StageStatus.failure, ["Malformed deployment configuration: missing ECSDeploymentSpec"])
    | some deployCfg =>
      match env.findCloudProvider with
      | none => (StageStatus.failure, [])
      | some found =>
        if stageName == StageECSSync then
          let status := ecsEnsureSync env deployCfg found.1 found.2 ds
          (env.determineStageStatus originalStatus status, [])
        else
          (StageStatus.failure, ["Unsupported stage " ++ stageName ++ " for ECS application"])

/-- The value a CLI flag is registered with. -/
inductive FlagValue where
  | str (s : String)
  | int (i : Int)
  | boolean (b : Bool)
  | duration (nanos : Int)
deriving DecidableEq

/-- One registered CLI flag: its name and its default value. -/
structure FlagDef where
  name : String
  defaultValue : FlagValue
deriving DecidableEq

/-- A cobra command as the two NewCommand constructors build one: its use
line, its flags with defaults in registration order, and the flags marked
required. -/
structure CLICommand where
  use : String
  flags : List FlagDef
  requiredFlags : List String
deriving DecidableEq

/-- pkg/app/piped/cmd/piped/piped.go: NewCommand. `home` is the detected
user home directory feeding the tools-dir default. -/
def NewCommand (home : String) : CLICommand :=
  { use := "piped",
    flags :=
      [{ name := "config-file", defaultValue := FlagValue.str "" },
       { name := "insecure", defaultValue := FlagValue.boolean false },
       { name := "cert-file", defaultValue := FlagValue.str "" },
       { name := "admin-port", defaultValue := FlagValue.int 9085 },
       { name := "tools-dir", defaultValue := FlagValue.str (home ++ "/.piped/tools") },
       { name := "use-fake-api-client", defaultValue := FlagValue.boolean false },
       { name := "enable-default-kubernetes-cloud-provider",
         defaultValue := FlagValue.boolean false },
       { name := "add-login-user-to-passwd", defaultValue := FlagValue.boolean false },
       { name := "grace-period", defaultValue := FlagValue.duration (30 * 1000000000) }],
    requiredFlags := ["config-file"] }

/-- The ops main package: NewOpsCommand. No flag is marked required
there. -/
def NewOpsCommand : CLICommand :=
  { use := "ops",
    flags :=
      [{ name := "http-port", defaultValue := FlagValue.int 9082 },
       { name := "admin-port", defaultValue := FlagValue.int 9085 },
       { name := "grace-period", defaultValue := FlagValue.duration (15 * 1000000000) },
       { name := "enableInsightCollector-insight-collector",
         defaultValue := FlagValue.boolean false },
       { name := "config-file", defaultValue := FlagValue.str "" },
       { name := "gcloud-path", defaultValue := FlagValue.str "" }],
    requiredFlags := [] }

/-- The registered default of the named flag, if the command defines it. -/
def lookupFlag (c : CLICommand) (flagName : String) : Option FlagValue :=
  (c.flags.find? (fun f => f.name == flagName)).map FlagDef.defaultValue

/-- A GenericDeploymentSpec with everything empty, used as a concrete
test fixture. -/
def emptyGenericSpec : GenericDeploymentSpec :=
  { commitMatcher := { quickSync := "", pipeline := "" },
    pipeline := none,
    sealedSecrets := [],
    triggerPaths := [],
    timeout := 0 }

/-- A KubernetesDeploymentSpec fixture wrapping emptyGenericSpec. -/
def trivialK8sSpec : KubernetesDeploymentSpec :=
  { generic := emptyGenericSpec }

/-- A manifest source whose every call succeeds with no manifests, used as
a concrete test fixture. -/
def okManifestSource : ManifestSource :=
  { initResult := Except.ok (),
    loadNewManifests := Except.ok [],
    checkoutResult := Except.ok (),
    loadOldManifests := Except.ok [] }

/-- A workload resource key, used as a concrete test fixture. -/
def deployKey : ResourceKey :=
  { apiGroup := "apps/v1", kind := "Deployment", nspace := "default", name := "workload" }

/-- Workload manifest running container image app:1.2, a test fixture. -/
def oldImageManifest : Manifest :=
  { key := deployKey,
    fields := [("spec.template.spec.containers.[0].image", "app:1.2")] }

/-- Workload manifest running container image app:1.3, a test fixture. -/
def newImageManifest : Manifest :=
  { key := deployKey,
    fields := [("spec.template.spec.containers.[0].image", "app:1.3")] }

/-- Workload manifest with 3 replicas, a test fixture. -/
def oldReplicasManifest : Manifest :=
  { key := deployKey, fields := [("spec.replicas", "3")] }

/-- Workload manifest with 5 replicas, a test fixture. -/
def newReplicasManifest : Manifest :=
  { key := deployKey, fields := [("spec.replicas", "5")] }

/-- ECS deployment input naming concrete definition files, a test
fixture. -/
def ecsFixtureInput : ECSDeploymentInput :=
  { taskDefinitionFile := "taskdef.yaml", serviceDefinitionFile := "servicedef.yaml" }

/-- ECS deployment spec fixture. -/
def ecsFixtureSpec : ECSDeploymentSpec :=
  { input := ecsFixtureInput }

/-- ECS deploy source fixture with the spec present. -/
def ecsFixtureDS : ECSDeploySource :=
  { ecsDeploymentSpec := some ecsFixtureSpec }

/-- An ECS executor environment whose every collaborator succeeds, a test
fixture. -/
def ecsFixtureEnv : ECSExecEnv :=
  { getReadOnly := Except.ok ecsFixtureDS,
    findCloudProvider := some ("ecs", {}),
    loadTaskDefinition := fun _ _ => some {},
    loadServiceDefinition := fun _ _ => some {},
    sync := fun _ _ _ _ => true,
    determineStageStatus := fun _ s => s }

/-- A decoder family that accepts every payload unchanged, a test
fixture. -/
def trivialWithDecoders : WithDecoders :=
  { wait := fun a _ => (a, none),
    waitApproval := fun a _ => (a, none),
    analysis := fun a _ => (a, none),
    k8sPrimaryRollout := fun a _ => (a, none),
    k8sCanaryRollout := fun a _ => (a, none),
    k8sCanaryClean := fun a _ => (a, none),
    k8sBaselineRollout := fun a _ => (a, none),
    k8sBaselineClean := fun a _ => (a, none),
    k8sTrafficRouting := fun a _ => (a, none),
    terraformSync := fun a _ => (a, none),
    terraformPlan := fun a _ => (a, none),
    terraformApply := fun a _ => (a, none),
    cloudRunSync := fun a _ => (a, none),
    cloudRunPromote := fun a _ => (a, none),
    lambdaSync := fun a _ => (a, none),
    lambdaPromote := fun a _ => (a, none),
    lambdaCanaryRollout := fun a _ => (a, none) }

/-- A WAIT stage envelope with no `with` payload, a test fixture. -/
def waitStageFixture : GenericPipelineStage :=
  { id := "stage-1", name := "WAIT", desc := "", timeout := 0, withRaw := "" }

/-- A WAIT_APPROVAL stage envelope with no `with` payload, a test
fixture. -/
def waitApprovalStageFixture : GenericPipelineStage :=
  { id := "stage-2", name := "WAIT_APPROVAL", desc := "", timeout := 0, withRaw := "" }

/-- An ANALYSIS stage envelope with no `with` payload, a test fixture. -/
def analysisStageFixture : GenericPipelineStage :=
  { id := "stage-3", name := "ANALYSIS", desc := "", timeout := 0, withRaw := "" }

lemma strContains_iff {s sub : String} : strContains s sub = true ↔ sub.data <:+: s.data := by
  simp [strContains]

lemma strContains_self (s : String) : strContains s s = true := by
  rw [strContains_iff]

lemma strContains_append_left (s t sub : String) (h : strContains s sub = true) :
    strContains (s ++ t) sub = true := by
  rw [strContains_iff] at h ⊢
  rw [String.data_append]
  exact h.trans (List.prefix_append _ _).isInfix

lemma strContains_append_right (s t sub : String) (h : strContains t sub = true) :
    strContains (s ++ t) sub = true := by
  rw [strContains_iff] at h ⊢
  rw [String.data_append]
  exact h.trans (List.suffix_append _ _).isInfix

lemma goJoin_contains (sep : String) (l : List String) (x : String) (h : x ∈ l) :
    strContains (goJoin l sep) x = true := by
  induction l with
  | nil => exact absurd h (List.not_mem_nil x)
  | cons a tail ih =>
    cases tail with
    | nil =>
      rw [List.mem_singleton] at h
      subst h
      exact strContains_self x
    | cons b bs =>
      rcases List.mem_cons.mp h with h | h
      · subst h
        show strContains (x ++ sep ++ goJoin (b :: bs) sep) x = true
        exact strContains_append_left _ _ _ (strContains_append_left _ _ _ (strContains_self x))
      · show strContains (a ++ sep ++ goJoin (b :: bs) sep) x = true
        exact strContains_append_right _ _ _ (ih h)

lemma checkImageChange_mem (diffList : DiffResultList) (d : DiffResult)
    (hd : d ∈ diffList) (hq : matchContainerImageQuery d.path = true) :
    (checkImageChange diffList).2 = true ∧
    strContains (checkImageChange diffList).1
      (let b := parseContainerImage d.before
       let a := parseContainerImage d.after
       if b.1 == a.1 then "image " ++ b.1 ++ " from " ++ b.2 ++ " to " ++ a.2
       else "image " ++ b.1 ++ ":" ++ b.2 ++ " to " ++ a.1 ++ ":" ++ a.2) = true := by
  have hmem : d ∈ FindAll diffList matchContainerImageQuery :=
    List.mem_filter.mpr ⟨hd, hq⟩
  have hne : (FindAll diffList matchContainerImageQuery).isEmpty = false := by
    cases hl : FindAll diffList matchContainerImageQuery with
    | nil => rw [hl] at hmem; exact absurd hmem (List.not_mem_nil d)
    | cons c cs => rfl
  simp only [checkImageChange, hne, Bool.false_eq_true, if_false]
  refine ⟨by trivial, ?_⟩
  apply strContains_append_left
  apply strContains_append_right
  apply goJoin_contains
  exact List.mem_map_of_mem _ hmem

/-- C1: for every Kubernetes planner input whose
MostRecentSuccessfulCommitHash is empty, Plan returns the QuickSync
(buildPipeline) stage list with a description containing "unable to find
the most recent successful commit", and its result is independent of the
manifest-loading environment, so no manifests are loaded or diffed. -/
theorem plan_first_deploy_quick_sync (cfg : KubernetesDeploymentSpec) (msg : String)
    (src src' : ManifestSource) (now : Int) :
    Plan { kubernetesDeploymentSpec := some cfg,
           mostRecentSuccessfulCommitHash := "",
           commitMessage := msg } src now =
      Except.ok { stages := buildPipeline now,
                  description := "Apply all manifests because it was unable to find the most recent successful commit." } ∧
    Plan { kubernetesDeploymentSpec := some cfg,
           mostRecentSuccessfulCommitHash := "",
           commitMessage := msg } src now =
      Plan { kubernetesDeploymentSpec := some cfg,
             mostRecentSuccessfulCommitHash := "",
             commitMessage := msg } src' now ∧
    strContains
      "Apply all manifests because it was unable to find the most recent successful commit."
      "unable to find the most recent successful commit" = true := by
  refine ⟨rfl, rfl, by decide⟩

/-- C2: with a non-empty MostRecentSuccessfulCommitHash and a trigger
commit message containing the rollback marker "/pipecd rollback ", Plan
returns the QuickSync (buildPipeline) stage list with the rollback
description, independently of the manifest-loading environment (manifests
are never loaded or compared). -/
theorem plan_rollback_marker_quick_sync (cfg : KubernetesDeploymentSpec)
    (hash msg : String) (src src' : ManifestSource) (now : Int)
    (h1 : (hash == "") = false)
    (h2 : strContains msg "/pipecd rollback " = true) :
    Plan { kubernetesDeploymentSpec := some cfg, mostRecentSuccessfulCommitHash := hash,
           commitMessage := msg } src now =
      Except.ok { stages := buildPipeline now,
                  description := "Rollback from commit " ++ hash ++ "." } ∧
    Plan { kubernetesDeploymentSpec := some cfg, mostRecentSuccessfulCommitHash := hash,
           commitMessage := msg } src now =
      Plan { kubernetesDeploymentSpec := some cfg, mostRecentSuccessfulCommitHash := hash,
             commitMessage := msg } src' now := by
  constructor
  · simp [Plan, h1, h2]
  · simp [Plan, h1, h2]

/-- Witness for plan_rollback_marker_quick_sync at a concrete input. -/
theorem plan_rollback_marker_quick_sync_witness :
    (("abc123" == "") = false) ∧
    (strContains "fix: /pipecd rollback deadbeef" "/pipecd rollback " = true) ∧
    Plan { kubernetesDeploymentSpec := some trivialK8sSpec,
           mostRecentSuccessfulCommitHash := "abc123",
           commitMessage := "fix: /pipecd rollback deadbeef" } okManifestSource 0 =
      Except.ok { stages := buildPipeline 0,
                  description := "Rollback from commit " ++ "abc123" ++ "." } :=
  ⟨by decide, by decide,
   (plan_rollback_marker_quick_sync trivialK8sSpec "abc123" "fix: /pipecd rollback deadbeef"
     okManifestSource okManifestSource 0 (by decide) (by decide)).1⟩

/-- C5: the Kubernetes planner is pure in its declared inputs: Plan is a
function of (deployment config, commit hash, commit message, loaded
manifests), and in particular its output does not depend on the ambient
clock value the source passes to the pipeline builders. -/
theorem plan_pure_in_declared_inputs (input : PlannerInput) (src : ManifestSource)
    (now now' : Int) :
    Plan input src now = Plan input src now' := by
  simp only [Plan, buildPipeline, buildProgressivePipeline]

/-- C3: when both manifest sets contain a workload and the scoped diff of
the workload has records under "spec.template", decideStrategy chooses
the Progressive pipeline and its description is a function of the
template diffs alone, so the later spec.replicas condition is never
consulted; when the template diffs include a container-image record with
unchanged image name, old app:1.2 and new app:1.3, the description
contains "image app from 1.2 to 1.3". -/
theorem decideStrategy_template_progressive
    (olds news : List Manifest) (ow nw : Manifest) (d : DiffResult)
    (ho : findWorkload olds = some ow) (hn : findWorkload news = some nw)
    (ht : FindByPrefix (Diff ow nw "spec") "spec.template" ≠ []) :
    (decideStrategy olds news).1 = true ∧
    (decideStrategy olds news).2 =
      (if (checkImageChange (FindByPrefix (Diff ow nw "spec") "spec.template")).2 then
         (checkImageChange (FindByPrefix (Diff ow nw "spec") "spec.template")).1
       else
         "Progressive deployment because pod template of workload " ++ nw.key.name ++
           " was changed.") ∧
    (d ∈ FindByPrefix (Diff ow nw "spec") "spec.template" →
     matchContainerImageQuery d.path = true →
     d.before = "app:1.2" → d.after = "app:1.3" →
     strContains (decideStrategy olds news).2 "image app from 1.2 to 1.3" = true) := by
  have hlen : 0 < (FindByPrefix (Diff ow nw "spec") "spec.template").length :=
    List.length_pos.mpr ht
  have key : decideStrategy olds news =
      (true,
       if (checkImageChange (FindByPrefix (Diff ow nw "spec") "spec.template")).2 then
         (checkImageChange (FindByPrefix (Diff ow nw "spec") "spec.template")).1
       else
         "Progressive deployment because pod template of workload " ++ nw.key.name ++
           " was changed.") := by
    simp only [decideStrategy, ho, hn, hlen, if_true]
    split <;> rfl
  refine ⟨by rw [key], by rw [key], ?_⟩
  intro hd hq hb ha
  obtain ⟨hc, hcont⟩ :=
    checkImageChange_mem (FindByPrefix (Diff ow nw "spec") "spec.template") d hd hq
  rw [key]
  simp only [hc, if_true]
  rw [hb, ha] at hcont
  have entry :
      (let b := parseContainerImage "app:1.2"
       let a := parseContainerImage "app:1.3"
       if b.1 == a.1 then "image " ++ b.1 ++ " from " ++ b.2 ++ " to " ++ a.2
       else "image " ++ b.1 ++ ":" ++ b.2 ++ " to " ++ a.1 ++ ":" ++ a.2) =
      "image app from 1.2 to 1.3" := by decide
  rw [entry] at hcont
  exact hcont

/-- Witness for decideStrategy_template_progressive at the concrete
app:1.2 → app:1.3 manifests. -/
theorem decideStrategy_template_progressive_witness :
    (decideStrategy [oldImageManifest] [newImageManifest]).1 = true ∧
    strContains (decideStrategy [oldImageManifest] [newImageManifest]).2
      "image app from 1.2 to 1.3" = true :=
  have h := decideStrategy_template_progressive [oldImageManifest] [newImageManifest]
    oldImageManifest newImageManifest
    { path := "spec.template.spec.containers.[0].image",
      before := "app:1.2", after := "app:1.3" }
    (by decide) (by decide) (by decide)
  ⟨h.1, h.2.2 (by decide) (by decide) rfl rfl⟩

/-- C4: when both manifest sets contain a workload, the scoped diff has
nothing under "spec.template", and the first spec.replicas record goes
from 3 to 5, decideStrategy chooses QuickSync with exactly the
description "Scale workload from 3 to 5.". -/
theorem decideStrategy_scale_only_quick_sync
    (olds news : List Manifest) (ow nw : Manifest)
    (ho : findWorkload olds = some ow) (hn : findWorkload news = some nw)
    (ht : FindByPrefix (Diff ow nw "spec") "spec.template" = [])
    (hr : Find (Diff ow nw "spec") matchReplicasQuery =
          some { path := "spec.replicas", before := "3", after := "5" }) :
    decideStrategy olds news = (false, "Scale workload from 3 to 5.") := by
  simp [decideStrategy, ho, hn, ht, checkReplicasChange, hr]

/-- Witness for decideStrategy_scale_only_quick_sync at the concrete
3 → 5 replica manifests. -/
theorem decideStrategy_scale_only_quick_sync_witness :
    decideStrategy [oldReplicasManifest] [newReplicasManifest] =
      (false, "Scale workload from 3 to 5.") :=
  decideStrategy_scale_only_quick_sync [oldReplicasManifest] [newReplicasManifest]
    oldReplicasManifest newReplicasManifest (by decide) (by decide) (by decide) (by decide)

/-- C8: when the ECS executor is given a stage name other than ECSSync,
and its preliminary steps succeed, Execute returns STAGE_FAILURE logging
the "Unsupported stage" reason; its result is moreover independent of the
task/service loaders, the sync call and the status combinator, so no sync
against the cloud provider is performed. -/
theorem ecs_execute_unsupported_stage_fails (env env' : ECSExecEnv) (stageName : String)
    (originalStatus : StageStatus) (ds : ECSDeploySource) (deployCfg : ECSDeploymentSpec)
    (found : String × CloudProviderECSConfig)
    (hg : env.getReadOnly = Except.ok ds)
    (hc : ds.ecsDeploymentSpec = some deployCfg)
    (hf : env.findCloudProvider = some found)
    (hs : (stageName == StageECSSync) = false) :
    ecsExecute env stageName originalStatus =
      (StageStatus.failure, ["Unsupported stage " ++ stageName ++ " for ECS application"]) ∧
    (env'.getReadOnly = env.getReadOnly → env'.findCloudProvider = env.findCloudProvider →
      ecsExecute env' stageName originalStatus = ecsExecute env stageName originalStatus) := by
  constructor
  · simp [ecsExecute, hg, hc, hf, hs]
  · intro h1 h2
    simp [ecsExecute, h1, h2, hg, hc, hf, hs]

/-- Witness for ecs_execute_unsupported_stage_fails at a concrete
environment and the WAIT stage name. -/
theorem ecs_execute_unsupported_stage_fails_witness :
    ecsExecute ecsFixtureEnv StageWait StageStatus.running =
      (StageStatus.failure, ["Unsupported stage " ++ StageWait ++ " for ECS application"]) :=
  (ecs_execute_unsupported_stage_fails ecsFixtureEnv ecsFixtureEnv StageWait
    StageStatus.running ecsFixtureDS ecsFixtureSpec ("ecs", {})
    rfl rfl rfl (by decide)).1

/-- C9 counterexample: the ops subcommand does not mark --config-file as
required, so the claim that both subcommands require it fails on
NewOpsCommand. -/
theorem ops_config_file_not_marked_required :
    ¬ ("config-file" ∈ NewOpsCommand.requiredFlags) := by
  decide

/-- C9 (amended): both subcommands define --config-file, --admin-port and
--grace-period; --admin-port defaults to 9085 in both, --grace-period
defaults to 30s for piped and 15s for ops, and --config-file is marked
required by the piped subcommand only (ops never marks it required). -/
theorem cli_shared_flag_defaults (home : String) :
    lookupFlag (NewCommand home) "config-file" = some (FlagValue.str "") ∧
    "config-file" ∈ (NewCommand home).requiredFlags ∧
    lookupFlag NewOpsCommand "config-file" = some (FlagValue.str "") ∧
    "config-file" ∉ NewOpsCommand.requiredFlags ∧
    lookupFlag (NewCommand home) "admin-port" = some (FlagValue.int 9085) ∧
    lookupFlag NewOpsCommand "admin-port" = some (FlagValue.int 9085) ∧
    lookupFlag (NewCommand home) "grace-period" =
      some (FlagValue.duration (30 * 1000000000)) ∧
    lookupFlag NewOpsCommand "grace-period" =
      some (FlagValue.duration (15 * 1000000000)) := by
  refine ⟨rfl, ?_, by decide, by decide, rfl, by decide, rfl, by decide⟩
  simp [NewCommand]

/-- C10: for every non-negative index, GetStage returns without panicking,
and returns a stage with true exactly when the pipeline is present and the
index is below the number of its stages; otherwise it returns the
zero-valued stage with false. Only the upper bound is checked by the
source, so non-negativity is a required precondition. -/
theorem getStage_checks_only_upper_bound (s : GenericDeploymentSpec) (index : Int)
    (h : 0 ≤ index) :
    ∃ st b, s.GetStage index = some (st, b) ∧
      (b = true ↔ ∃ p, s.pipeline = some p ∧ index < (p.stages.length : Int)) ∧
      (b = false → st = emptyPipelineStage) ∧
      (∀ p, s.pipeline = some p → index < (p.stages.length : Int) →
        st = p.stages.getD index.toNat emptyPipelineStage) := by
  cases hp : s.pipeline with
  | none =>
    refine ⟨emptyPipelineStage, false, ?_, ?_, fun _ => rfl, ?_⟩
    · simp [GenericDeploymentSpec.GetStage, hp]
    · simp
    · intro p hps
      exact absurd hps (by simp)
  | some p =>
    by_cases hlen : (p.stages.length : Int) ≤ index
    · refine ⟨emptyPipelineStage, false, ?_, ?_, fun _ => rfl, ?_⟩
      · simp [GenericDeploymentSpec.GetStage, hp, hlen]
      · simp only [Bool.false_eq_true, false_iff]
        rintro ⟨q, hq, hlt⟩
        rw [Option.some.injEq] at hq
        subst hq
        exact absurd hlt (not_lt.mpr hlen)
      · intro q hq hlt
        rw [Option.some.injEq] at hq
        subst hq
        exact absurd hlt (not_lt.mpr hlen)
    · obtain ⟨n, rfl⟩ : ∃ n : Nat, index = (n : Int) :=
        ⟨index.toNat, (Int.toNat_of_nonneg h).symm⟩
      refine ⟨p.stages.getD n emptyPipelineStage, true, ?_, ?_, ?_, ?_⟩
      · simp only [GenericDeploymentSpec.GetStage, hp, if_neg hlen]
      · exact iff_of_true rfl ⟨p, rfl, not_le.mp hlen⟩
      · intro hfalse
        exact absurd hfalse (by simp)
      · intro q hq _
        rw [Option.some.injEq] at hq
        subst hq
        rfl

lemma decodeWith_nil {α : Type} (d : JSONDecoder α) (z : α) :
    decodeWith d z "" = (z, none) :=
  rfl

lemma metrics_timeout_map (l : List TemplatableAnalysisMetrics) :
    (l.map (fun m =>
      if m.analysisMetrics.timeout ≤ 0 then
        { m with analysisMetrics :=
                   { m.analysisMetrics with timeout := defaultAnalysisQueryTimeout } }
      else m)).map (fun m => m.analysisMetrics.timeout) =
    l.map (fun m =>
      if m.analysisMetrics.timeout ≤ 0 then defaultAnalysisQueryTimeout
      else m.analysisMetrics.timeout) := by
  induction l with
  | nil => rfl
  | cons a t ih =>
    simp only [List.map_cons, ih]
    congr 1
    by_cases hc : a.analysisMetrics.timeout ≤ 0 <;> simp [hc]

/-- C6: PipelineStage.UnmarshalJSON is the two-pass decode: an envelope
error is returned unchanged with the zero receiver; for a supported stage
name exactly the options pointer selected by the name is set and the
returned error is exactly the error of decoding the `with` payload into
that variant (so decoding succeeds iff both passes do); an unsupported
name yields the "unsupported stage name" error and sets no options
pointer. -/
theorem unmarshalPipelineStage_two_pass (dec : WithDecoders)
    (envelope : Except String GenericPipelineStage) :
    (∀ e, envelope = Except.error e →
      unmarshalPipelineStage dec envelope = (emptyPipelineStage, some e)) ∧
    (∀ gs, envelope = Except.ok gs → gs.name ∈ supportedStageNames →
      setOptionNames (unmarshalPipelineStage dec envelope).1 = [gs.name] ∧
      (unmarshalPipelineStage dec envelope).2 = selectedWithError dec gs) ∧
    (∀ gs, envelope = Except.ok gs → gs.name ∉ supportedStageNames →
      setOptionNames (unmarshalPipelineStage dec envelope).1 = [] ∧
      (unmarshalPipelineStage dec envelope).2 =
        some ("unsupported stage name: " ++ gs.name)) := by
  refine ⟨?_, ?_, ?_⟩
  · intro e he
    subst he
    rfl
  · intro gs he hmem
    subst he
    simp only [supportedStageNames, List.mem_cons, List.not_mem_nil, or_false] at hmem
    rcases hmem with h | h | h | h | h | h | h | h | h | h | h | h | h | h | h | h | h <;>
      simp [unmarshalPipelineStage, selectedWithError, setOptionNames, h,
            emptyPipelineStage, StageWait, StageWaitApproval, StageAnalysis,
            StageK8sPrimaryRollout, StageK8sCanaryRollout, StageK8sCanaryClean,
            StageK8sBaselineRollout, StageK8sBaselineClean, StageK8sTrafficRouting,
            StageTerraformSync, StageTerraformPlan, StageTerraformApply,
            StageCloudRunSync, StageCloudRunPromote,
            StageLambdaSync, StageLambdaPromote, StageLambdaCanaryRollout]
  · intro gs he hmem
    subst he
    simp only [supportedStageNames, List.mem_cons, List.not_mem_nil, or_false,
               not_or] at hmem
    obtain ⟨h1, h2, h3, h4, h5, h6, h7, h8, h9, h10, h11, h12, h13, h14, h15, h16, h17⟩ :=
      hmem
    simp [unmarshalPipelineStage, setOptionNames, beq_iff_eq, emptyPipelineStage,
          h1, h2, h3, h4, h5, h6, h7, h8, h9, h10, h11, h12, h13, h14, h15, h16, h17]

/-- Witness for unmarshalPipelineStage_two_pass at a concrete WAIT stage
envelope. -/
theorem unmarshalPipelineStage_two_pass_witness :
    setOptionNames
      (unmarshalPipelineStage trivialWithDecoders (Except.ok waitStageFixture)).1 =
      [waitStageFixture.name] ∧
    (unmarshalPipelineStage trivialWithDecoders (Except.ok waitStageFixture)).2 =
      selectedWithError trivialWithDecoders waitStageFixture :=
  (unmarshalPipelineStage_two_pass trivialWithDecoders
    (Except.ok waitStageFixture)).2.1 waitStageFixture rfl (by decide)

/-- C7: missing or non-positive optional timeouts take the documented
defaults: a decoded WaitApproval stage's timeout is the decoded value
when positive and 6 hours (defaultWaitApprovalTimeout) otherwise — in
particular 6 hours when `with` is absent; every decoded Analysis metric's
query timeout is the decoded value when positive and 30 seconds
(defaultAnalysisQueryTimeout) otherwise; and
GenericDeploymentSpec.Validate replaces a zero overall Timeout with 6
hours and keeps any non-zero configured value unchanged. -/
theorem timeout_defaults_applied (dec : WithDecoders) (gsW gsA : GenericPipelineStage)
    (s : GenericDeploymentSpec)
    (hW : gsW.name = StageWaitApproval) (hA : gsA.name = StageAnalysis) :
    ((unmarshalPipelineStage dec (Except.ok gsW)).1.waitApprovalStageOptions.map
        WaitApprovalStageOptions.timeout) =
      some
        (if (decodeWith dec.waitApproval { timeout := 0, approvers := [] } gsW.withRaw).1.timeout ≤ 0
         then defaultWaitApprovalTimeout
         else (decodeWith dec.waitApproval { timeout := 0, approvers := [] } gsW.withRaw).1.timeout) ∧
    (gsW.withRaw = "" →
      ((unmarshalPipelineStage dec (Except.ok gsW)).1.waitApprovalStageOptions.map
          WaitApprovalStageOptions.timeout) = some defaultWaitApprovalTimeout) ∧
    ((unmarshalPipelineStage dec (Except.ok gsA)).1.analysisStageOptions.map
        (fun a => a.metrics.map (fun m => m.analysisMetrics.timeout))) =
      some ((decodeWith dec.analysis zeroAnalysisStageOptions gsA.withRaw).1.metrics.map
        (fun m =>
          if m.analysisMetrics.timeout ≤ 0 then defaultAnalysisQueryTimeout
          else m.analysisMetrics.timeout)) ∧
    (s.timeout = 0 → (s.Validate).1.timeout = 6 * 60 * 60 * 1000000000) ∧
    (s.timeout ≠ 0 → (s.Validate).1.timeout = s.timeout) := by
  have e1 : (unmarshalPipelineStage dec (Except.ok gsW)).1.waitApprovalStageOptions =
      some
        (if (decodeWith dec.waitApproval { timeout := 0, approvers := [] } gsW.withRaw).1.timeout ≤ 0
         then { (decodeWith dec.waitApproval { timeout := 0, approvers := [] } gsW.withRaw).1 with
                timeout := defaultWaitApprovalTimeout }
         else (decodeWith dec.waitApproval { timeout := 0, approvers := [] } gsW.withRaw).1) := by
    simp [unmarshalPipelineStage, hW, StageWait, StageWaitApproval]
  have e2 : (unmarshalPipelineStage dec (Except.ok gsA)).1.analysisStageOptions =
      some { (decodeWith dec.analysis zeroAnalysisStageOptions gsA.withRaw).1 with
             metrics :=
               (decodeWith dec.analysis zeroAnalysisStageOptions gsA.withRaw).1.metrics.map
                 (fun m =>
                   if m.analysisMetrics.timeout ≤ 0 then
                     { m with analysisMetrics :=
                         { m.analysisMetrics with timeout := defaultAnalysisQueryTimeout } }
                   else m) } := by
    simp [unmarshalPipelineStage, hA, StageWait, StageWaitApproval, StageAnalysis]
  refine ⟨?_, ?_, ?_, ?_, ?_⟩
  · rw [e1]
    by_cases hc :
        (decodeWith dec.waitApproval { timeout := 0, approvers := [] } gsW.withRaw).1.timeout ≤ 0 <;>
      simp [hc]
  · intro h0
    rw [e1, h0, decodeWith_nil]
    rfl
  · rw [e2]
    simp only [Option.map_some']
    rw [metrics_timeout_map]
  · intro h0
    obtain ⟨cm, pl, ss, tp, tmo⟩ := s
    have h0' : tmo = 0 := h0
    subst h0'
    cases pl <;> simp [GenericDeploymentSpec.Validate]
  · intro h0
    obtain ⟨cm, pl, ss, tp, tmo⟩ := s
    have h0' : tmo ≠ 0 := h0
    cases pl <;> simp [GenericDeploymentSpec.Validate, beq_iff_eq, h0']

/-- Witness for timeout_defaults_applied at concrete WAIT_APPROVAL and
ANALYSIS envelopes without payloads, and concrete deployment specs with
zero and non-zero overall timeouts. -/
theorem timeout_defaults_applied_witness :
    ((unmarshalPipelineStage trivialWithDecoders
        (Except.ok waitApprovalStageFixture)).1.waitApprovalStageOptions.map
      WaitApprovalStageOptions.timeout) = some defaultWaitApprovalTimeout ∧
    (emptyGenericSpec.Validate).1.timeout = 6 * 60 * 60 * 1000000000 ∧
    (({ emptyGenericSpec with timeout := 5 } : GenericDeploymentSpec).Validate).1.timeout = 5 :=
  have h := timeout_defaults_applied trivialWithDecoders waitApprovalStageFixture
    analysisStageFixture emptyGenericSpec rfl rfl
  have h5 := timeout_defaults_applied trivialWithDecoders waitApprovalStageFixture
    analysisStageFixture { emptyGenericSpec with timeout := 5 } rfl rfl
  ⟨h.2.1 rfl, h.2.2.2.1 rfl, h5.2.2.2.2 (by decide)⟩

/-- Witness for getStage_checks_only_upper_bound at a one-stage pipeline
and index 0. -/
theorem getStage_checks_only_upper_bound_witness :
    ∃ st b,
      GenericDeploymentSpec.GetStage
        { emptyGenericSpec with pipeline := some { stages := [emptyPipelineStage] } } 0 =
        some (st, b) ∧
      (b = true ↔ ∃ p,
        ({ emptyGenericSpec with
           pipeline := some { stages := [emptyPipelineStage] } } : GenericDeploymentSpec).pipeline =
          some p ∧ (0 : Int) < (p.stages.length : Int)) ∧
      (b = false → st = emptyPipelineStage) ∧
      (∀ p,
        ({ emptyGenericSpec with
           pipeline := some { stages := [emptyPipelineStage] } } : GenericDeploymentSpec).pipeline =
          some p → (0 : Int) < (p.stages.length : Int) →
        st = p.stages.getD (Int.toNat 0) emptyPipelineStage) :=
  getStage_checks_only_upper_bound
    { emptyGenericSpec with pipeline := some { stages := [emptyPipelineStage] } } 0
    (by decide)

end Pipe
